import Mathlib

/-!
Verification of the business-manager backend against its specification.

The definitions below are a shallow embedding of the two code units the
claims concern:

* the Lambda API handler (`src/unnamed/part_003`) — the location save
  guard (`saveLocation`), `getLocation`, and the reminder / supplier
  CRUD handlers (`updateReminder`, `deleteReminder`, `updateSupplier`,
  `deleteSupplier`); and
* the reminder-checker Lambda (`src/lambda/reminder-checker/index.js`) —
  the per-minute evaluator tick (`handlerTick`), its due filter
  (`isDue`), the sent-marker dedup (`checkIfSent`, `markAsSent`),
  `disableReminder` and `sendTelegramNotification`.

Store and network effects are made explicit: DynamoDB single-document
reads/writes become explicit state passing, the Telegram call becomes an
oracle giving the outcome of each fetch, and the calls the evaluator
makes to the notifier are recorded in a list so that "the notifier is
called at most once" is expressible.
-/

namespace BusinessManager

/-! ## Location documents (Lambda `saveLocation` / `getLocation`) -/

structure Product where
  id : String
  name : String
  quantity : Int
  unit : String
deriving DecidableEq

structure Category where
  id : String
  name : String
  products : List Product
deriving DecidableEq

structure Task where
  id : String
  text : String
  note : String
  done : Bool
deriving DecidableEq

structure TaskList where
  id : String
  name : String
  color : String
  tasks : List Task
deriving DecidableEq

/-- The stored location document, as written by `saveLocation`
(`{id, categories, taskLists, version, updatedAt}`).  The document the
Lambda's default `getLocation` response fabricates has no `updatedAt`
field, hence the `Option`. -/
structure LocationItem where
  id : String
  categories : List Category
  taskLists : List TaskList
  version : Int
  updatedAt : Option String
deriving DecidableEq

/-- A `PUT /locations/{id}` request body.  Each field may be absent
(JavaScript `undefined`), which the code handles with `?.` and `|| 0`. -/
structure SaveData where
  categories : Option (List Category)
  taskLists : Option (List TaskList)
  version : Option Int
deriving DecidableEq

/-- `current.categories?.reduce((sum, c) => sum + (c.products?.length || 0), 0)`. -/
def countProducts (cats : List Category) : Nat :=
  cats.foldl (fun sum c => sum + c.products.length) 0

/-- `current.taskLists?.reduce((sum, t) => sum + (t.tasks?.length || 0), 0)`. -/
def countTasks (tls : List TaskList) : Nat :=
  tls.foldl (fun sum t => sum + t.tasks.length) 0

/-- JavaScript `data.version || 0`: an absent version reads as `0`
(and `0 || 0` is again `0`). -/
def versionOrZero (v : Option Int) : Int := v.getD 0

/-- The suspicious-shrink test of `saveLocation`:
`(prevProductCount > 10 && newProductCount < 3) || (prevTaskCount > 10 && newTaskCount < 3)`. -/
def suspiciousShrink (cur : LocationItem) (d : SaveData) : Bool :=
  (countProducts cur.categories > 10 && countProducts (d.categories.getD []) < 3) ||
  (countTasks cur.taskLists > 10 && countTasks (d.taskLists.getD []) < 3)

/-- The shrink check runs inside `if (current) { ... }`: with no stored
document it cannot block. -/
def shrinkBlocked (current : Option LocationItem) (d : SaveData) : Bool :=
  match current with
  | some cur => suspiciousShrink cur d
  | none => false

inductive SaveResult where
  | rejected (status : Nat) (error : String)
  | accepted (item : LocationItem)
deriving DecidableEq

def saveAccepted : SaveResult → Bool
  | .accepted _ => true
  | .rejected _ _ => false

/-- The Lambda `saveLocation(locationId, data)` handler.  The stored
document for the location is passed in and the (possibly updated)
document is returned next to the HTTP result, mirroring the
`GetCommand` / `PutCommand` pair in the code. -/
def saveLocation (locationId : String) (data : Option SaveData)
    (current : Option LocationItem) (now : String) :
    SaveResult × Option LocationItem :=
  match data with
  | none => (.rejected 400 "Missing data", current)
  | some d =>
    if (d.categories.getD []).length = 0 ∧ (d.taskLists.getD []).length = 0 then
      (.rejected 400 "Cannot save empty state - both categories and taskLists are empty",
        current)
    else if shrinkBlocked current d then
      (.rejected 400 "Suspicious data reduction detected", current)
    else
      let item : LocationItem :=
        { id := locationId
          categories := d.categories.getD []
          taskLists := d.taskLists.getD []
          version := versionOrZero d.version + 1
          updatedAt := some now }
      (.accepted item, some item)

structure GetResponse where
  status : Nat
  body : LocationItem
deriving DecidableEq

/-- The Lambda `getLocation(locationId)` handler: a missing document is
answered with an empty default at version `0`. -/
def getLocation (locationId : String) (current : Option LocationItem) : GetResponse :=
  match current with
  | none =>
      ⟨200, { id := locationId, categories := [], taskLists := [], version := 0,
              updatedAt := none }⟩
  | some it => ⟨200, it⟩

/-- Version of the stored document as a poller sees it. -/
def storedVersion (locationId : String) (current : Option LocationItem) : Int :=
  (getLocation locationId current).body.version

/-- One save in which the client echoes the currently stored version,
as the api-client's version cache does
(`version: data.version || this.versionCache.get(...)?.version || 0`). -/
def echoStep (locationId now : String) (st : Option LocationItem)
    (req : List Category × List TaskList) : Option LocationItem :=
  (saveLocation locationId
    (some { categories := some req.1, taskLists := some req.2,
            version := some (storedVersion locationId st) }) st now).2

/-- A sequence of version-echoing saves. -/
def echoRun (locationId now : String) (reqs : List (List Category × List TaskList))
    (st : Option LocationItem) : Option LocationItem :=
  reqs.foldl (echoStep locationId now) st

/-- Every save of an echoing sequence is accepted. -/
def allAccepted (locationId now : String) :
    Option LocationItem → List (List Category × List TaskList) → Bool
  | _, [] => true
  | st, req :: rest =>
      saveAccepted (saveLocation locationId
        (some { categories := some req.1, taskLists := some req.2,
                version := some (storedVersion locationId st) }) st now).1
      && allAccepted locationId now (echoStep locationId now st req) rest

/-! ### Helper lemmas about `saveLocation` -/

/-- An accepted save stores (and returns) exactly the proposed arrays with
version `data.version || 0` plus one. -/
theorem saveLocation_accepted {locationId : String} {d : SaveData}
    {current : Option LocationItem} {now : String} {item : LocationItem}
    (h : (saveLocation locationId (some d) current now).1 = .accepted item) :
    item = { id := locationId
             categories := d.categories.getD []
             taskLists := d.taskLists.getD []
             version := versionOrZero d.version + 1
             updatedAt := some now } ∧
    (saveLocation locationId (some d) current now).2 = some item := by
  by_cases h1 : d.categories.getD [] = [] ∧ d.taskLists.getD [] = []
  · simp [saveLocation, h1] at h
  · by_cases h2 : shrinkBlocked current d = true
    · simp [saveLocation, h1, h2] at h
    · simp [saveLocation, h1, h2] at h ⊢
      exact ⟨h.symm, h⟩

theorem saveAccepted_elim {r : SaveResult} (h : saveAccepted r = true) :
    ∃ item, r = .accepted item := by
  cases r with
  | rejected s e => simp [saveAccepted] at h
  | accepted item => exact ⟨item, rfl⟩

theorem suspiciousShrink_eq_true_iff (cur : LocationItem) (d : SaveData) :
    suspiciousShrink cur d = true ↔
      ((countProducts cur.categories > 10 ∧ countProducts (d.categories.getD []) < 3) ∨
       (countTasks cur.taskLists > 10 ∧ countTasks (d.taskLists.getD []) < 3)) := by
  simp [suspiciousShrink]

/-! ## Claim theorems about the save guard -/

/-- C1: a save whose proposed `categories` and `taskLists` are both empty
is rejected with a 400 error response and the stored document for the
location is unchanged. -/
theorem c1_empty_wipe_guard (locationId : String) (d : SaveData)
    (current : Option LocationItem) (now : String)
    (hc : d.categories.getD [] = []) (ht : d.taskLists.getD [] = []) :
    saveLocation locationId (some d) current now =
      (.rejected 400 "Cannot save empty state - both categories and taskLists are empty",
        current) := by
  simp [saveLocation, hc, ht]

theorem c1_empty_wipe_guard_witness :
    ((⟨some [], some [], some 7⟩ : SaveData).categories.getD [] = []) ∧
    saveLocation "isgav" (some ⟨some [], some [], some 7⟩)
        (some ⟨"isgav", [⟨"c1", "cat", [⟨"p1", "prod", 1, "unit"⟩]⟩], [], 3, none⟩) "t1" =
      (.rejected 400 "Cannot save empty state - both categories and taskLists are empty",
        some ⟨"isgav", [⟨"c1", "cat", [⟨"p1", "prod", 1, "unit"⟩]⟩], [], 3, none⟩) :=
  ⟨by decide,
   c1_empty_wipe_guard "isgav" ⟨some [], some [], some 7⟩
     (some ⟨"isgav", [⟨"c1", "cat", [⟨"p1", "prod", 1, "unit"⟩]⟩], [], 3, none⟩) "t1"
     (by decide) (by decide)⟩

/-- C4: with a stored document present and the empty-wipe guard passed, a
save is rejected by the shrink guard — leaving the store unchanged —
exactly when `prevProductCount > 10 ∧ newProductCount < 3` or the same
test holds on task counts; otherwise the save is accepted. -/
theorem c4_shrink_guard (locationId : String) (d : SaveData) (cur : LocationItem)
    (now : String) (hne : ¬(d.categories.getD [] = [] ∧ d.taskLists.getD [] = [])) :
    (saveLocation locationId (some d) (some cur) now
        = (.rejected 400 "Suspicious data reduction detected", some cur)
      ↔ ((countProducts cur.categories > 10 ∧ countProducts (d.categories.getD []) < 3) ∨
         (countTasks cur.taskLists > 10 ∧ countTasks (d.taskLists.getD []) < 3))) ∧
    (¬((countProducts cur.categories > 10 ∧ countProducts (d.categories.getD []) < 3) ∨
       (countTasks cur.taskLists > 10 ∧ countTasks (d.taskLists.getD []) < 3)) →
      ∃ item, saveLocation locationId (some d) (some cur) now
        = (.accepted item, some item)) := by
  constructor
  · by_cases hsh : suspiciousShrink cur d = true
    · have := (suspiciousShrink_eq_true_iff cur d).mp hsh
      simp [saveLocation, hne, shrinkBlocked, hsh, this]
    · have : ¬ _ := fun hp => hsh ((suspiciousShrink_eq_true_iff cur d).mpr hp)
      simp [saveLocation, hne, shrinkBlocked, hsh, this]
  · intro hp
    have hsh : ¬ suspiciousShrink cur d = true :=
      fun hb => hp ((suspiciousShrink_eq_true_iff cur d).mp hb)
    refine ⟨{ id := locationId, categories := d.categories.getD [],
              taskLists := d.taskLists.getD [],
              version := versionOrZero d.version + 1, updatedAt := some now }, ?_⟩
    simp [saveLocation, hne, shrinkBlocked, hsh]

theorem c4_shrink_guard_witness :
    (¬(((⟨some [⟨"c1", "cat", [⟨"p1", "prod", 1, "unit"⟩, ⟨"p2", "prod", 1, "unit"⟩]⟩],
         some [], some 3⟩ : SaveData)).categories.getD [] = [] ∧
       ((⟨some [⟨"c1", "cat", [⟨"p1", "prod", 1, "unit"⟩, ⟨"p2", "prod", 1, "unit"⟩]⟩],
         some [], some 3⟩ : SaveData)).taskLists.getD [] = [])) ∧
    (saveLocation "isgav"
        (some ⟨some [⟨"c1", "cat", [⟨"p1", "prod", 1, "unit"⟩, ⟨"p2", "prod", 1, "unit"⟩]⟩],
               some [], some 3⟩)
        (some ⟨"isgav", [⟨"c1", "cat", List.replicate 11 ⟨"p", "prod", 1, "unit"⟩⟩], [], 3, none⟩)
        "t1"
      = (.rejected 400 "Suspicious data reduction detected",
         some ⟨"isgav", [⟨"c1", "cat", List.replicate 11 ⟨"p", "prod", 1, "unit"⟩⟩], [], 3, none⟩)) ∧
    (∃ item, saveLocation "isgav"
        (some ⟨some [⟨"c1", "cat",
            [⟨"p1", "prod", 1, "unit"⟩, ⟨"p2", "prod", 1, "unit"⟩,
             ⟨"p3", "prod", 1, "unit"⟩, ⟨"p4", "prod", 1, "unit"⟩]⟩], some [], some 3⟩)
        (some ⟨"isgav", [⟨"c1", "cat", List.replicate 11 ⟨"p", "prod", 1, "unit"⟩⟩], [], 3, none⟩)
        "t1"
      = (.accepted item, some item)) :=
  ⟨by decide,
   ((c4_shrink_guard "isgav"
      ⟨some [⟨"c1", "cat", [⟨"p1", "prod", 1, "unit"⟩, ⟨"p2", "prod", 1, "unit"⟩]⟩],
       some [], some 3⟩
      ⟨"isgav", [⟨"c1", "cat", List.replicate 11 ⟨"p", "prod", 1, "unit"⟩⟩], [], 3, none⟩
      "t1" (by decide)).1).mpr (by decide),
   (c4_shrink_guard "isgav"
      ⟨some [⟨"c1", "cat",
          [⟨"p1", "prod", 1, "unit"⟩, ⟨"p2", "prod", 1, "unit"⟩,
           ⟨"p3", "prod", 1, "unit"⟩, ⟨"p4", "prod", 1, "unit"⟩]⟩], some [], some 3⟩
      ⟨"isgav", [⟨"c1", "cat", List.replicate 11 ⟨"p", "prod", 1, "unit"⟩⟩], [], 3, none⟩
      "t1" (by decide)).2 (by decide)⟩

/-- C2 fails on the code: the store does not increment the stored version
— it writes `data.version || 0` plus one, so a single accepted save
(N = 1) from a version-0 document with a client-supplied version of 5
leaves the stored version at 6, not 1. -/
theorem c2_counterexample :
    saveAccepted (saveLocation "isgav"
        (some ⟨some [⟨"c1", "cat", [⟨"p1", "prod", 1, "unit"⟩]⟩], some [], some 5⟩)
        (some ⟨"isgav", [⟨"c1", "cat", [⟨"p1", "prod", 1, "unit"⟩]⟩], [], 0, none⟩) "t1").1
      = true ∧
    storedVersion "isgav" (saveLocation "isgav"
        (some ⟨some [⟨"c1", "cat", [⟨"p1", "prod", 1, "unit"⟩]⟩], some [], some 5⟩)
        (some ⟨"isgav", [⟨"c1", "cat", [⟨"p1", "prod", 1, "unit"⟩]⟩], [], 0, none⟩) "t1").2
      = 6 ∧
    (6 : Int) ≠ 1 := by
  decide

/-- C2 (amended): the store writes `data.version || 0` plus one, so the
version grows by one per accepted save only when each client echoes the
currently stored version, as the api-client's version cache does; under
that discipline N consecutive accepted saves add N to the stored
version (hence reach N from version 0). -/
theorem c2_version_echo (locationId now : String)
    (reqs : List (List Category × List TaskList)) :
    ∀ st : Option LocationItem, allAccepted locationId now st reqs = true →
    storedVersion locationId (echoRun locationId now reqs st)
      = storedVersion locationId st + reqs.length := by
  induction reqs with
  | nil => intro st _; simp [echoRun]
  | cons req rest ih =>
    intro st h
    rw [allAccepted, Bool.and_eq_true] at h
    obtain ⟨hacc, hrest⟩ := h
    obtain ⟨item, hitem⟩ := saveAccepted_elim hacc
    have h2 := saveLocation_accepted hitem
    have hstep : echoRun locationId now (req :: rest) st
        = echoRun locationId now rest (echoStep locationId now st req) := by
      simp [echoRun]
    have hv : storedVersion locationId (echoStep locationId now st req)
        = storedVersion locationId st + 1 := by
      unfold echoStep
      rw [h2.2, h2.1]
      simp [storedVersion, getLocation, versionOrZero]
    rw [hstep, ih _ hrest, hv]
    simp only [List.length_cons]
    push_cast
    ring

theorem c2_version_echo_witness :
    allAccepted "isgav" "t1" none
        [([⟨"c1", "cat", [⟨"p1", "prod", 1, "unit"⟩]⟩], []),
         ([⟨"c1", "cat", [⟨"p1", "prod", 1, "unit"⟩]⟩], [])] = true ∧
    storedVersion "isgav" (echoRun "isgav" "t1"
        [([⟨"c1", "cat", [⟨"p1", "prod", 1, "unit"⟩]⟩], []),
         ([⟨"c1", "cat", [⟨"p1", "prod", 1, "unit"⟩]⟩], [])] none)
      = storedVersion "isgav" none
        + ([([⟨"c1", "cat", [⟨"p1", "prod", 1, "unit"⟩]⟩], []),
            ([⟨"c1", "cat", [⟨"p1", "prod", 1, "unit"⟩]⟩], [])] :
              List (List Category × List TaskList)).length :=
  ⟨by decide,
   c2_version_echo "isgav" "t1"
     [([⟨"c1", "cat", [⟨"p1", "prod", 1, "unit"⟩]⟩], []),
      ([⟨"c1", "cat", [⟨"p1", "prod", 1, "unit"⟩]⟩], [])] none (by decide)⟩

/-- C8 fails on the code: a GET after an accepted PUT reports the version
from the PUT body plus one, not the pre-PUT stored version plus one — a
PUT carrying version 0 over a stored version-4 document reads back as
version 1, not 5. -/
theorem c8_counterexample :
    saveAccepted (saveLocation "isgav"
        (some ⟨some [⟨"c1", "cat", [⟨"p1", "prod", 1, "unit"⟩]⟩], some [], some 0⟩)
        (some ⟨"isgav", [⟨"c1", "cat", [⟨"p1", "prod", 1, "unit"⟩]⟩], [], 4, none⟩) "t1").1
      = true ∧
    (getLocation "isgav" (saveLocation "isgav"
        (some ⟨some [⟨"c1", "cat", [⟨"p1", "prod", 1, "unit"⟩]⟩], some [], some 0⟩)
        (some ⟨"isgav", [⟨"c1", "cat", [⟨"p1", "prod", 1, "unit"⟩]⟩], [], 4, none⟩)
        "t1").2).body.version = 1 ∧
    ((1 : Int) ≠ 4 + 1) := by
  decide

/-- C8 (amended): a GET immediately after an accepted PUT returns exactly
the saved categories and taskLists, with version equal to the version
supplied in the PUT body (0 if absent) plus one — which is one greater
than the pre-PUT stored version only when the body echoes that
version. -/
theorem c8_round_trip (locationId : String) (d : SaveData)
    (st : Option LocationItem) (now : String) (item : LocationItem)
    (h : (saveLocation locationId (some d) st now).1 = .accepted item) :
    getLocation locationId (saveLocation locationId (some d) st now).2 = ⟨200, item⟩ ∧
    item.categories = d.categories.getD [] ∧
    item.taskLists = d.taskLists.getD [] ∧
    item.version = versionOrZero d.version + 1 := by
  obtain ⟨h1, h2⟩ := saveLocation_accepted h
  rw [h2]
  subst h1
  exact ⟨rfl, rfl, rfl, rfl⟩

theorem c8_round_trip_witness :
    ((saveLocation "isgav"
        (some ⟨some [⟨"c1", "cat", [⟨"p1", "prod", 1, "unit"⟩]⟩], some [], some 3⟩)
        none "t1").1
      = .accepted ⟨"isgav", [⟨"c1", "cat", [⟨"p1", "prod", 1, "unit"⟩]⟩], [], 4, some "t1"⟩) ∧
    getLocation "isgav" (saveLocation "isgav"
        (some ⟨some [⟨"c1", "cat", [⟨"p1", "prod", 1, "unit"⟩]⟩], some [], some 3⟩)
        none "t1").2
      = ⟨200, ⟨"isgav", [⟨"c1", "cat", [⟨"p1", "prod", 1, "unit"⟩]⟩], [], 4, some "t1"⟩⟩ :=
  ⟨by decide,
   (c8_round_trip "isgav"
     ⟨some [⟨"c1", "cat", [⟨"p1", "prod", 1, "unit"⟩]⟩], some [], some 3⟩
     none "t1" ⟨"isgav", [⟨"c1", "cat", [⟨"p1", "prod", 1, "unit"⟩]⟩], [], 4, some "t1"⟩
     (by decide)).1⟩

/-! ## Reminder evaluator (reminder-checker Lambda) -/

/-- A stored reminder definition.  `days` and `date` may be absent:
the code guards them with `reminder.days && ...` and compares
`reminder.date === currentDateStr` (null never matches). -/
structure Reminder where
  id : String
  title : String
  time : String
  type : String
  enabled : Bool
  days : Option (List String)
  date : Option String
  updatedAt : Option String
deriving DecidableEq

/-- A row of the sent-reminders table
(`{id: sentKey, reminderId, sentAt, expiresAt}`). -/
structure SentMarker where
  id : String
  reminderId : String
  sentAt : String
  expiresAt : Nat
deriving DecidableEq

/-- The wall-clock context the handler computes once per tick:
`currentTime` (`HH:MM`), `currentDayName`, `currentDateStr`
(`DD/MM/YYYY`). -/
structure Now where
  time : String
  dayName : String
  dateStr : String
deriving DecidableEq

/-- Outcome of one Telegram `fetch`: an `ok` response, a response with
`ok: false`, or a thrown network error. -/
inductive TelegramOutcome where
  | ok
  | apiError (description : String)
  | networkError
deriving DecidableEq

/-- `sendTelegramNotification`: `true` only for an `ok` response; an
API error (`!result.ok`) or a caught network failure yields `false`. -/
def sendTelegramNotification : TelegramOutcome → Bool
  | .ok => true
  | .apiError _ => false
  | .networkError => false

/-- The due filter of the handler: exact string equality on `time`, then
day membership for recurring reminders or exact date match for one-time
reminders; any other `type` is never due. -/
def isDue (r : Reminder) (now : Now) : Bool :=
  if r.time ≠ now.time then false
  else if r.type = "recurring" then
    match r.days with
    | some ds => ds.contains now.dayName
    | none => false
  else if r.type = "one-time" then
    match r.date with
    | some d => d == now.dateStr
    | none => false
  else false

/-- `currentDateStr.replace(/\//g, '-')`. -/
def dashDate (s : String) : String :=
  ⟨s.data.map (fun c => if c = '/' then '-' else c)⟩

/-- The dedup key `` `${reminder.id}-${currentDateStr.replace(/\//g, '-')}` ``. -/
def sentKeyFor (reminderId : String) (dateStr : String) : String :=
  reminderId ++ "-" ++ dashDate dateStr

/-- `checkIfSent`: a `GetCommand` on the sent-reminders table by key. -/
def checkIfSent (sentKey : String) (markers : List SentMarker) : Bool :=
  markers.any (fun m => m.id = sentKey)

/-- `disableReminder`: overwrite the reminder at that key with
`{...item, enabled: false, updatedAt}`. -/
def disableReminder (reminderId : String) (nowIso : String)
    (rs : List Reminder) : List Reminder :=
  rs.map (fun r => if r.id = reminderId
    then { r with enabled := false, updatedAt := some nowIso } else r)

/-- Both tables the tick touches. -/
structure TickState where
  reminders : List Reminder
  sentMarkers : List SentMarker
deriving DecidableEq

/-- Accumulator of the per-reminder loop: the evolving tables, the ids
the Notifier has been called for, and `sentCount`. -/
structure TickResult where
  state : TickState
  notifyCalls : List String
  sentCount : Nat
deriving DecidableEq

/-- The body of `for (const reminder of dueReminders) { ... }` for one
due reminder: check the sent marker, otherwise call the Notifier, and
on success write the marker (7-day TTL) and disable a one-time
reminder. -/
def processReminder (outcome : Reminder → TelegramOutcome) (now : Now)
    (nowIso : String) (ttl : Nat) (acc : TickResult) (r : Reminder) : TickResult :=
  let sentKey := sentKeyFor r.id now.dateStr
  if checkIfSent sentKey acc.state.sentMarkers then acc
  else
    let success := sendTelegramNotification (outcome r)
    let calls := acc.notifyCalls ++ [r.id]
    if success then
      let markers := acc.state.sentMarkers
        ++ [{ id := sentKey, reminderId := r.id, sentAt := nowIso, expiresAt := ttl }]
      let rems := if r.type = "one-time"
        then disableReminder r.id nowIso acc.state.reminders
        else acc.state.reminders
      { state := { reminders := rems, sentMarkers := markers },
        notifyCalls := calls, sentCount := acc.sentCount + 1 }
    else
      { acc with notifyCalls := calls }

/-- The reminders the tick considers due: the enabled ones (the scan's
filter expression) restricted by `isDue`. -/
def dueReminders (st : TickState) (now : Now) : List Reminder :=
  (st.reminders.filter (fun r => r.enabled)).filter (fun r => isDue r now)

/-- Everything observable about one tick. -/
structure TickOutput where
  state : TickState
  notifyCalls : List String
  checked : Nat
  due : Nat
  sent : Nat
deriving DecidableEq

/-- One invocation of the reminder-checker handler.  With no Telegram
credentials the tick is a no-op; otherwise it filters the due reminders
and runs the per-reminder loop.  `outcome` tells how the Telegram API
answers each send, `nowIso` and `ttl` stand for `new Date().toISOString()`
and the 7-day TTL. -/
def handlerTick (credsPresent : Bool) (outcome : Reminder → TelegramOutcome)
    (now : Now) (nowIso : String) (ttl : Nat) (st : TickState) : TickOutput :=
  if credsPresent then
    let due := dueReminders st now
    let res := due.foldl (processReminder outcome now nowIso ttl) ⟨st, [], 0⟩
    { state := res.state, notifyCalls := res.notifyCalls,
      checked := (st.reminders.filter (fun r => r.enabled)).length,
      due := due.length, sent := res.sentCount }
  else
    { state := st, notifyCalls := [], checked := 0, due := 0, sent := 0 }

/-- Number of sent markers stored under a given key. -/
def markerCount (sentKey : String) (markers : List SentMarker) : Nat :=
  (markers.filter (fun m => m.id = sentKey)).length

/-- The reminders table is keyed by `id`: no two rows share an id. -/
def idsNodup (st : TickState) : Prop :=
  (st.reminders.map (fun r => r.id)).Nodup

instance (st : TickState) : Decidable (idsNodup st) := by
  unfold idsNodup; infer_instance

/-! ### Helper lemmas about the evaluator -/

theorem sentKeyFor_inj {a b d : String} (h : sentKeyFor a d = sentKeyFor b d) :
    a = b := by
  have h' := congrArg String.data h
  simp only [sentKeyFor, String.data_append, List.append_assoc] at h'
  exact String.ext (List.append_cancel_right h')

theorem processReminder_skip (outcome : Reminder → TelegramOutcome) (now : Now)
    (nowIso : String) (ttl : Nat) (acc : TickResult) (r : Reminder)
    (hc : checkIfSent (sentKeyFor r.id now.dateStr) acc.state.sentMarkers = true) :
    processReminder outcome now nowIso ttl acc r = acc := by
  simp [processReminder, hc]

theorem processReminder_success (outcome : Reminder → TelegramOutcome) (now : Now)
    (nowIso : String) (ttl : Nat) (acc : TickResult) (r : Reminder)
    (hc : checkIfSent (sentKeyFor r.id now.dateStr) acc.state.sentMarkers = false)
    (hs : sendTelegramNotification (outcome r) = true) :
    processReminder outcome now nowIso ttl acc r =
      { state := { reminders := if r.type = "one-time"
                     then disableReminder r.id nowIso acc.state.reminders
                     else acc.state.reminders,
                   sentMarkers := acc.state.sentMarkers ++
                     [{ id := sentKeyFor r.id now.dateStr, reminderId := r.id,
                        sentAt := nowIso, expiresAt := ttl }] },
        notifyCalls := acc.notifyCalls ++ [r.id],
        sentCount := acc.sentCount + 1 } := by
  simp [processReminder, hc, hs]

theorem processReminder_failure (outcome : Reminder → TelegramOutcome) (now : Now)
    (nowIso : String) (ttl : Nat) (acc : TickResult) (r : Reminder)
    (hc : checkIfSent (sentKeyFor r.id now.dateStr) acc.state.sentMarkers = false)
    (hs : sendTelegramNotification (outcome r) = false) :
    processReminder outcome now nowIso ttl acc r =
      { acc with notifyCalls := acc.notifyCalls ++ [r.id] } := by
  simp [processReminder, hc, hs]

/-- Once the sent marker for a key is in the table, the per-reminder loop
never calls the Notifier for a reminder with that key and never writes
another marker under it. -/
theorem processFold_after_marker (outcome : Reminder → TelegramOutcome) (now : Now)
    (nowIso : String) (ttl : Nat) (k : String) (l : List Reminder) :
    ∀ acc : TickResult, checkIfSent k acc.state.sentMarkers = true →
      checkIfSent k
          ((l.foldl (processReminder outcome now nowIso ttl) acc).state.sentMarkers)
        = true ∧
      markerCount k
          ((l.foldl (processReminder outcome now nowIso ttl) acc).state.sentMarkers)
        = markerCount k acc.state.sentMarkers ∧
      ∀ rid, sentKeyFor rid now.dateStr = k →
        rid ∈ (l.foldl (processReminder outcome now nowIso ttl) acc).notifyCalls →
        rid ∈ acc.notifyCalls := by
  induction l with
  | nil => exact fun acc h => ⟨h, rfl, fun _ _ hm => hm⟩
  | cons r rest ih =>
    intro acc h
    rw [List.foldl_cons]
    by_cases hc : checkIfSent (sentKeyFor r.id now.dateStr) acc.state.sentMarkers = true
    · rw [processReminder_skip outcome now nowIso ttl acc r hc]
      exact ih acc h
    · rw [Bool.not_eq_true] at hc
      have hkne : sentKeyFor r.id now.dateStr ≠ k := by
        intro he
        rw [he, h] at hc
        simp at hc
      cases hs : sendTelegramNotification (outcome r) with
      | false =>
        rw [processReminder_failure outcome now nowIso ttl acc r hc hs]
        have hres := ih { acc with notifyCalls := acc.notifyCalls ++ [r.id] } h
        refine ⟨hres.1, hres.2.1, fun rid hkey hmem => ?_⟩
        rcases List.mem_append.mp (hres.2.2 rid hkey hmem) with h4 | h4
        · exact h4
        · have hrid : rid = r.id := by simpa using h4
          exact absurd (hrid ▸ hkey) hkne
      | true =>
        rw [processReminder_success outcome now nowIso ttl acc r hc hs]
        have hck' : checkIfSent k (acc.state.sentMarkers ++
            [{ id := sentKeyFor r.id now.dateStr, reminderId := r.id,
               sentAt := nowIso, expiresAt := ttl }]) = true := by
          simp only [checkIfSent, List.any_append] at h ⊢
          simp [h]
        have hres := ih
          { state := { reminders := if r.type = "one-time"
                         then disableReminder r.id nowIso acc.state.reminders
                         else acc.state.reminders,
                       sentMarkers := acc.state.sentMarkers ++
                         [{ id := sentKeyFor r.id now.dateStr, reminderId := r.id,
                            sentAt := nowIso, expiresAt := ttl }] },
            notifyCalls := acc.notifyCalls ++ [r.id],
            sentCount := acc.sentCount + 1 } hck'
        have hcount : markerCount k (acc.state.sentMarkers ++
            [{ id := sentKeyFor r.id now.dateStr, reminderId := r.id,
               sentAt := nowIso, expiresAt := ttl }]) = markerCount k acc.state.sentMarkers := by
          simp only [markerCount, List.filter_append, List.length_append]
          simp [hkne]
        refine ⟨hres.1, hres.2.1.trans hcount, fun rid hkey hmem => ?_⟩
        rcases List.mem_append.mp (hres.2.2 rid hkey hmem) with h4 | h4
        · exact h4
        · have hrid : rid = r.id := by simpa using h4
          exact absurd (hrid ▸ hkey) hkne

/-- If a key's marker is absent and no reminder in the list would write
under that key, the marker is still absent after the loop. -/
theorem processFold_marker_absent (outcome : Reminder → TelegramOutcome) (now : Now)
    (nowIso : String) (ttl : Nat) (k : String) (l : List Reminder) :
    ∀ acc : TickResult, checkIfSent k acc.state.sentMarkers = false →
      (∀ x ∈ l, sentKeyFor x.id now.dateStr ≠ k) →
      checkIfSent k
          ((l.foldl (processReminder outcome now nowIso ttl) acc).state.sentMarkers)
        = false := by
  induction l with
  | nil => exact fun _ h _ => h
  | cons r rest ih =>
    intro acc h hl
    rw [List.foldl_cons]
    by_cases hc : checkIfSent (sentKeyFor r.id now.dateStr) acc.state.sentMarkers = true
    · rw [processReminder_skip outcome now nowIso ttl acc r hc]
      exact ih acc h fun x hx => hl x (List.mem_cons_of_mem r hx)
    · rw [Bool.not_eq_true] at hc
      cases hs : sendTelegramNotification (outcome r) with
      | false =>
        rw [processReminder_failure outcome now nowIso ttl acc r hc hs]
        exact ih _ h fun x hx => hl x (List.mem_cons_of_mem r hx)
      | true =>
        rw [processReminder_success outcome now nowIso ttl acc r hc hs]
        apply ih
        · simp only [checkIfSent, List.any_append] at h ⊢
          have hm : sentKeyFor r.id now.dateStr ≠ k := hl r (List.mem_cons_self r rest)
          simp [h, hm]
        · exact fun x hx => hl x (List.mem_cons_of_mem r hx)

theorem disableReminder_id_enabled (reminderId nowIso : String) (rs : List Reminder) :
    ∀ x ∈ disableReminder reminderId nowIso rs, x.id = reminderId → x.enabled = false := by
  intro x hx hid
  rw [disableReminder, List.mem_map] at hx
  obtain ⟨y, hy, hxy⟩ := hx
  by_cases hyid : y.id = reminderId
  · rw [if_pos hyid] at hxy
    rw [← hxy]
  · rw [if_neg hyid] at hxy
    subst hxy
    exact absurd hid hyid

theorem disableReminder_preserves_disabled (reminderId' nowIso rid : String)
    (rs : List Reminder)
    (h : ∀ x ∈ rs, x.id = rid → x.enabled = false) :
    ∀ x ∈ disableReminder reminderId' nowIso rs, x.id = rid → x.enabled = false := by
  intro x hx hid
  rw [disableReminder, List.mem_map] at hx
  obtain ⟨y, hy, hxy⟩ := hx
  by_cases hyid : y.id = reminderId'
  · rw [if_pos hyid] at hxy
    rw [← hxy]
  · rw [if_neg hyid] at hxy
    subst hxy
    exact h y hy hid

/-- "Every reminder with this id is disabled" survives the rest of the
per-reminder loop: the loop only ever disables reminders further. -/
theorem processFold_disabled (outcome : Reminder → TelegramOutcome) (now : Now)
    (nowIso : String) (ttl : Nat) (rid : String) (l : List Reminder) :
    ∀ acc : TickResult,
      (∀ x ∈ acc.state.reminders, x.id = rid → x.enabled = false) →
      ∀ x ∈ (l.foldl (processReminder outcome now nowIso ttl) acc).state.reminders,
        x.id = rid → x.enabled = false := by
  induction l with
  | nil => exact fun _ h => h
  | cons r rest ih =>
    intro acc h
    rw [List.foldl_cons]
    by_cases hc : checkIfSent (sentKeyFor r.id now.dateStr) acc.state.sentMarkers = true
    · rw [processReminder_skip outcome now nowIso ttl acc r hc]
      exact ih acc h
    · rw [Bool.not_eq_true] at hc
      cases hs : sendTelegramNotification (outcome r) with
      | false =>
        rw [processReminder_failure outcome now nowIso ttl acc r hc hs]
        exact ih _ h
      | true =>
        rw [processReminder_success outcome now nowIso ttl acc r hc hs]
        apply ih
        by_cases ht : r.type = "one-time"
        · rw [if_pos ht]
          exact disableReminder_preserves_disabled r.id nowIso rid acc.state.reminders h
        · rw [if_neg ht]
          exact h

/-- A reminder that no due one-time reminder shares an id with survives
the loop untouched. -/
theorem processFold_mem (outcome : Reminder → TelegramOutcome) (now : Now)
    (nowIso : String) (ttl : Nat) (r' : Reminder) (l : List Reminder) :
    ∀ acc : TickResult, r' ∈ acc.state.reminders →
      (∀ x ∈ l, x.type = "one-time" → x.id ≠ r'.id) →
      r' ∈ (l.foldl (processReminder outcome now nowIso ttl) acc).state.reminders := by
  induction l with
  | nil => exact fun _ h _ => h
  | cons r rest ih =>
    intro acc h hl
    rw [List.foldl_cons]
    by_cases hc : checkIfSent (sentKeyFor r.id now.dateStr) acc.state.sentMarkers = true
    · rw [processReminder_skip outcome now nowIso ttl acc r hc]
      exact ih acc h fun x hx => hl x (List.mem_cons_of_mem r hx)
    · rw [Bool.not_eq_true] at hc
      cases hs : sendTelegramNotification (outcome r) with
      | false =>
        rw [processReminder_failure outcome now nowIso ttl acc r hc hs]
        exact ih _ h fun x hx => hl x (List.mem_cons_of_mem r hx)
      | true =>
        rw [processReminder_success outcome now nowIso ttl acc r hc hs]
        apply ih
        · by_cases ht : r.type = "one-time"
          · rw [if_pos ht]
            have hne : ¬ r'.id = r.id :=
              fun he => hl r (List.mem_cons_self r rest) ht he.symm
            have : (fun x => if x.id = r.id
                then { x with enabled := false, updatedAt := some nowIso } else x) r' = r' := by
              simp [hne]
            rw [disableReminder, ← this]
            exact List.mem_map_of_mem _ h
          · rw [if_neg ht]
            exact h
        · exact fun x hx => hl x (List.mem_cons_of_mem r hx)

/-! ## Claim theorems about the evaluator -/

/-- C3: once the SentMarker for a reminder id and calendar day is stored,
any further tick that day never calls the Notifier for that reminder and
writes no further marker under that key, however its filter turns out. -/
theorem c3_reminder_dedup (outcome : Reminder → TelegramOutcome) (now : Now)
    (nowIso : String) (ttl : Nat) (st : TickState) (rid : String)
    (h : checkIfSent (sentKeyFor rid now.dateStr) st.sentMarkers = true) :
    rid ∉ (handlerTick true outcome now nowIso ttl st).notifyCalls ∧
    markerCount (sentKeyFor rid now.dateStr)
        (handlerTick true outcome now nowIso ttl st).state.sentMarkers
      = markerCount (sentKeyFor rid now.dateStr) st.sentMarkers := by
  have hfold := processFold_after_marker outcome now nowIso ttl
    (sentKeyFor rid now.dateStr) (dueReminders st now) ⟨st, [], 0⟩ h
  constructor
  · intro hmem
    have hnil : rid ∈ ([] : List String) := hfold.2.2 rid rfl hmem
    simp at hnil
  · exact hfold.2.1

theorem c3_reminder_dedup_witness :
    checkIfSent (sentKeyFor "rem-1" "06/01/2025")
        (handlerTick true (fun _ => TelegramOutcome.ok) ⟨"09:00", "שני", "06/01/2025"⟩
          "iso1" 1000
          ⟨[⟨"rem-1", "order stock", "09:00", "recurring", true, some ["שני"], none, none⟩],
           []⟩).state.sentMarkers = true ∧
    ("rem-1" ∉ (handlerTick true (fun _ => TelegramOutcome.ok)
        ⟨"09:00", "שני", "06/01/2025"⟩ "iso2" 1000
        (handlerTick true (fun _ => TelegramOutcome.ok) ⟨"09:00", "שני", "06/01/2025"⟩
          "iso1" 1000
          ⟨[⟨"rem-1", "order stock", "09:00", "recurring", true, some ["שני"], none, none⟩],
           []⟩).state).notifyCalls ∧
     markerCount (sentKeyFor "rem-1" "06/01/2025")
        (handlerTick true (fun _ => TelegramOutcome.ok)
          ⟨"09:00", "שני", "06/01/2025"⟩ "iso2" 1000
          (handlerTick true (fun _ => TelegramOutcome.ok) ⟨"09:00", "שני", "06/01/2025"⟩
            "iso1" 1000
            ⟨[⟨"rem-1", "order stock", "09:00", "recurring", true, some ["שני"], none, none⟩],
             []⟩).state).state.sentMarkers
       = markerCount (sentKeyFor "rem-1" "06/01/2025")
          (handlerTick true (fun _ => TelegramOutcome.ok) ⟨"09:00", "שני", "06/01/2025"⟩
            "iso1" 1000
            ⟨[⟨"rem-1", "order stock", "09:00", "recurring", true, some ["שני"], none, none⟩],
             []⟩).state.sentMarkers) :=
  ⟨by decide,
   c3_reminder_dedup (fun _ => TelegramOutcome.ok) ⟨"09:00", "שני", "06/01/2025"⟩
     "iso2" 1000
     (handlerTick true (fun _ => TelegramOutcome.ok) ⟨"09:00", "שני", "06/01/2025"⟩
       "iso1" 1000
       ⟨[⟨"rem-1", "order stock", "09:00", "recurring", true, some ["שני"], none, none⟩],
        []⟩).state
     "rem-1" (by decide)⟩

/-- C6: a reminder is due on a tick exactly when it is a stored, enabled
reminder whose time string equals the current `HH:MM`, and it is
recurring with the current weekday name in its days, or one-time with
its date equal to the current `DD/MM/YYYY`. -/
theorem c6_due_filter (st : TickState) (now : Now) (r : Reminder) :
    r ∈ dueReminders st now ↔
      (r ∈ st.reminders ∧ r.enabled = true ∧ r.time = now.time ∧
        ((r.type = "recurring" ∧ ∃ ds, r.days = some ds ∧ now.dayName ∈ ds) ∨
         (r.type = "one-time" ∧ r.date = some now.dateStr))) := by
  simp only [dueReminders, List.mem_filter]
  constructor
  · rintro ⟨⟨hmem, hen⟩, hdue⟩
    refine ⟨hmem, hen, ?_⟩
    by_cases h1 : r.time = now.time
    · refine ⟨h1, ?_⟩
      rw [isDue, if_neg (by simp [h1])] at hdue
      by_cases h2 : r.type = "recurring"
      · rw [if_pos h2] at hdue
        cases hd : r.days with
        | none => rw [hd] at hdue; cases hdue
        | some ds =>
          rw [hd] at hdue
          exact Or.inl ⟨h2, ds, rfl, by simpa using hdue⟩
      · rw [if_neg h2] at hdue
        by_cases h3 : r.type = "one-time"
        · rw [if_pos h3] at hdue
          cases hdt : r.date with
          | none => rw [hdt] at hdue; cases hdue
          | some dd =>
            rw [hdt] at hdue
            have : dd = now.dateStr := by simpa using hdue
            exact Or.inr ⟨h3, by rw [this]⟩
        · rw [if_neg h3] at hdue; cases hdue
    · rw [isDue, if_pos h1] at hdue
      cases hdue
  · rintro ⟨hmem, hen, htime, hrest⟩
    refine ⟨⟨hmem, hen⟩, ?_⟩
    rw [isDue, if_neg (by simp [htime])]
    rcases hrest with ⟨htype, ds, hds, hmemd⟩ | ⟨htype, hdate⟩
    · rw [if_pos htype, hds]
      simpa using hmemd
    · have hnr : ¬ r.type = "recurring" := by rw [htype]; decide
      rw [if_neg hnr, if_pos htype, hdate]
      simp

/-- C9: a non-`ok` Telegram response and a network failure both make the
Notifier report `false`; the loop then records the call but leaves both
tables — including the sent markers and the reminder's `enabled` flag —
untouched and goes on processing the remaining due reminders from that
same state. -/
theorem c9_notifier_failure :
    (∀ d, sendTelegramNotification (.apiError d) = false) ∧
    sendTelegramNotification .networkError = false ∧
    ∀ (outcome : Reminder → TelegramOutcome) (now : Now) (nowIso : String) (ttl : Nat)
      (acc : TickResult) (r : Reminder) (rest : List Reminder),
      checkIfSent (sentKeyFor r.id now.dateStr) acc.state.sentMarkers = false →
      sendTelegramNotification (outcome r) = false →
      (r :: rest).foldl (processReminder outcome now nowIso ttl) acc
        = rest.foldl (processReminder outcome now nowIso ttl)
            { acc with notifyCalls := acc.notifyCalls ++ [r.id] } := by
  refine ⟨fun _ => rfl, rfl, ?_⟩
  intro outcome now nowIso ttl acc r rest hc hs
  rw [List.foldl_cons, processReminder_failure outcome now nowIso ttl acc r hc hs]

theorem c9_notifier_failure_witness :
    checkIfSent
        (sentKeyFor "rem-1" "06/01/2025")
        (TickResult.mk
          ⟨[⟨"rem-1", "order stock", "09:00", "recurring", true, some ["שני"], none, none⟩], []⟩
          [] 0).state.sentMarkers = false ∧
    ([⟨"rem-1", "order stock", "09:00", "recurring", true, some ["שני"], none, none⟩] :
        List Reminder).foldl
        (processReminder (fun _ => TelegramOutcome.networkError)
          ⟨"09:00", "שני", "06/01/2025"⟩ "iso1" 1000)
        (TickResult.mk
          ⟨[⟨"rem-1", "order stock", "09:00", "recurring", true, some ["שני"], none, none⟩], []⟩
          [] 0)
      = ([] : List Reminder).foldl
          (processReminder (fun _ => TelegramOutcome.networkError)
            ⟨"09:00", "שני", "06/01/2025"⟩ "iso1" 1000)
          { TickResult.mk
              ⟨[⟨"rem-1", "order stock", "09:00", "recurring", true, some ["שני"], none, none⟩], []⟩
              [] 0 with
            notifyCalls := (TickResult.mk
              ⟨[⟨"rem-1", "order stock", "09:00", "recurring", true, some ["שני"], none, none⟩], []⟩
              [] 0).notifyCalls ++ ["rem-1"] } :=
  ⟨by decide,
   c9_notifier_failure.2.2 (fun _ => TelegramOutcome.networkError)
     ⟨"09:00", "שני", "06/01/2025"⟩ "iso1" 1000
     (TickResult.mk
       ⟨[⟨"rem-1", "order stock", "09:00", "recurring", true, some ["שני"], none, none⟩], []⟩
       [] 0)
     ⟨"rem-1", "order stock", "09:00", "recurring", true, some ["שני"], none, none⟩
     [] (by decide) (by decide)⟩

/-- C5: an enabled one-time reminder matching the tick's time and date,
not yet sent today, whose Telegram call succeeds, is stored disabled
after the tick; its sent marker is stored, so a repeat tick the same day
never calls the Notifier for it again.  Recurring reminders pass through
any tick untouched. -/
theorem c5_one_time_auto_disable :
    (∀ (outcome : Reminder → TelegramOutcome) (now : Now) (nowIso : String) (ttl : Nat)
        (st : TickState) (r : Reminder),
      idsNodup st → r ∈ st.reminders → r.enabled = true → r.type = "one-time" →
      r.time = now.time → r.date = some now.dateStr →
      checkIfSent (sentKeyFor r.id now.dateStr) st.sentMarkers = false →
      outcome r = .ok →
      ((∀ x ∈ (handlerTick true outcome now nowIso ttl st).state.reminders,
          x.id = r.id → x.enabled = false) ∧
       checkIfSent (sentKeyFor r.id now.dateStr)
          (handlerTick true outcome now nowIso ttl st).state.sentMarkers = true ∧
       ∀ (outcome2 : Reminder → TelegramOutcome) (now2 : Now) (nowIso2 : String)
         (ttl2 : Nat), now2.dateStr = now.dateStr →
         r.id ∉ (handlerTick true outcome2 now2 nowIso2 ttl2
             (handlerTick true outcome now nowIso ttl st).state).notifyCalls)) ∧
    (∀ (outcome : Reminder → TelegramOutcome) (now : Now) (nowIso : String) (ttl : Nat)
        (st : TickState) (r' : Reminder),
      idsNodup st → r' ∈ st.reminders → r'.type = "recurring" →
      r' ∈ (handlerTick true outcome now nowIso ttl st).state.reminders) := by
  constructor
  · intro outcome now nowIso ttl st r hnd hmem hen htype htime hdate hck hok
    have hdue : isDue r now = true := by
      rw [isDue, if_neg (by simp [htime])]
      have hnr : ¬ r.type = "recurring" := by rw [htype]; decide
      rw [if_neg hnr, if_pos htype, hdate]
      simp
    have hmemdue : r ∈ dueReminders st now := by
      simp only [dueReminders, List.mem_filter]
      exact ⟨⟨hmem, hen⟩, hdue⟩
    obtain ⟨l1, l2, hsplit⟩ := List.append_of_mem hmemdue
    have hsub : List.Sublist (dueReminders st now) st.reminders :=
      (List.filter_sublist _).trans (List.filter_sublist _)
    have hnd' : (st.reminders.map (fun r => r.id)).Nodup := hnd
    have hnddue : ((dueReminders st now).map (fun r => r.id)).Nodup :=
      List.Nodup.sublist (hsub.map (fun r => r.id)) hnd'
    have hl1 : ∀ x ∈ l1, x.id ≠ r.id := by
      rw [hsplit, List.map_append, List.map_cons] at hnddue
      have hmid := List.nodup_middle.mp hnddue
      intro x hx heq
      exact (List.nodup_cons.mp hmid).1
        (List.mem_append.mpr (Or.inl (List.mem_map.mpr ⟨x, hx, heq⟩)))
    have hstep1 : ∀ x ∈ l1, sentKeyFor x.id now.dateStr ≠ sentKeyFor r.id now.dateStr :=
      fun x hx he => hl1 x hx (sentKeyFor_inj he)
    have hck1 := processFold_marker_absent outcome now nowIso ttl
      (sentKeyFor r.id now.dateStr) l1 ⟨st, [], 0⟩ hck hstep1
    have hsucc : sendTelegramNotification (outcome r) = true := by rw [hok]; rfl
    have hstep2 := processReminder_success outcome now nowIso ttl
      (l1.foldl (processReminder outcome now nowIso ttl) ⟨st, [], 0⟩) r hck1 hsucc
    have hdisabled2 : ∀ x ∈ (processReminder outcome now nowIso ttl
        (l1.foldl (processReminder outcome now nowIso ttl) ⟨st, [], 0⟩) r).state.reminders,
        x.id = r.id → x.enabled = false := by
      rw [hstep2]
      simp only [if_pos htype]
      exact disableReminder_id_enabled r.id nowIso _
    have hck2 : checkIfSent (sentKeyFor r.id now.dateStr)
        (processReminder outcome now nowIso ttl
          (l1.foldl (processReminder outcome now nowIso ttl) ⟨st, [], 0⟩) r).state.sentMarkers
        = true := by
      rw [hstep2]
      simp [checkIfSent, List.any_append]
    have hfold : (handlerTick true outcome now nowIso ttl st).state
        = (l2.foldl (processReminder outcome now nowIso ttl)
            (processReminder outcome now nowIso ttl
              (l1.foldl (processReminder outcome now nowIso ttl) ⟨st, [], 0⟩) r)).state := by
      have h0 : (handlerTick true outcome now nowIso ttl st).state
          = ((dueReminders st now).foldl (processReminder outcome now nowIso ttl)
              ⟨st, [], 0⟩).state := rfl
      rw [h0, hsplit, List.foldl_append, List.foldl_cons]
    have hpresent : checkIfSent (sentKeyFor r.id now.dateStr)
        (handlerTick true outcome now nowIso ttl st).state.sentMarkers = true := by
      rw [hfold]
      exact (processFold_after_marker outcome now nowIso ttl _ l2 _ hck2).1
    refine ⟨?_, hpresent, ?_⟩
    · rw [hfold]
      exact processFold_disabled outcome now nowIso ttl r.id l2 _ hdisabled2
    · intro outcome2 now2 nowIso2 ttl2 hday hmem2
      have hkey : sentKeyFor r.id now2.dateStr = sentKeyFor r.id now.dateStr := by
        rw [hday]
      have h2 := processFold_after_marker outcome2 now2 nowIso2 ttl2
        (sentKeyFor r.id now.dateStr)
        (dueReminders (handlerTick true outcome now nowIso ttl st).state now2)
        ⟨(handlerTick true outcome now nowIso ttl st).state, [], 0⟩ hpresent
      have hnil : r.id ∈ ([] : List String) := h2.2.2 r.id hkey hmem2
      simp at hnil
  · intro outcome now nowIso ttl st r' hnd hmem htype
    have hnd' : (st.reminders.map (fun r => r.id)).Nodup := hnd
    have hsub : List.Sublist (dueReminders st now) st.reminders :=
      (List.filter_sublist _).trans (List.filter_sublist _)
    have hl : ∀ x ∈ dueReminders st now, x.type = "one-time" → x.id ≠ r'.id := by
      intro x hx hxt heq
      have hxmem : x ∈ st.reminders := hsub.subset hx
      have hxr : x = r' := List.inj_on_of_nodup_map hnd' hxmem hmem heq
      rw [hxr, htype] at hxt
      simp at hxt
    exact processFold_mem outcome now nowIso ttl r' (dueReminders st now)
      ⟨st, [], 0⟩ hmem hl

theorem c5_one_time_auto_disable_witness :
    checkIfSent
        (sentKeyFor "rem-2"
          (Now.mk "09:00" "שני" "06/01/2025").dateStr)
        (TickState.mk
          [⟨"rem-2", "pay rent", "09:00", "one-time", true, none, some "06/01/2025", none⟩]
          []).sentMarkers = false ∧
    (checkIfSent (sentKeyFor "rem-2" (Now.mk "09:00" "שני" "06/01/2025").dateStr)
        (handlerTick true (fun _ => TelegramOutcome.ok) ⟨"09:00", "שני", "06/01/2025"⟩
          "iso1" 1000
          (TickState.mk
            [⟨"rem-2", "pay rent", "09:00", "one-time", true, none, some "06/01/2025", none⟩]
            [])).state.sentMarkers = true) ∧
    ("rem-2" ∉ (handlerTick true (fun _ => TelegramOutcome.ok)
        ⟨"10:00", "שני", "06/01/2025"⟩ "iso2" 1000
        (handlerTick true (fun _ => TelegramOutcome.ok) ⟨"09:00", "שני", "06/01/2025"⟩
          "iso1" 1000
          (TickState.mk
            [⟨"rem-2", "pay rent", "09:00", "one-time", true, none, some "06/01/2025", none⟩]
            [])).state).notifyCalls) ∧
    (⟨"rem-3", "standup", "09:00", "recurring", true, some ["שני"], none, none⟩ : Reminder)
      ∈ (handlerTick true (fun _ => TelegramOutcome.apiError "chat not found")
          ⟨"09:00", "שני", "06/01/2025"⟩ "iso1" 1000
          (TickState.mk
            [⟨"rem-3", "standup", "09:00", "recurring", true, some ["שני"], none, none⟩]
            [])).state.reminders :=
  ⟨by decide,
   (c5_one_time_auto_disable.1 (fun _ => TelegramOutcome.ok)
     ⟨"09:00", "שני", "06/01/2025"⟩ "iso1" 1000
     (TickState.mk
       [⟨"rem-2", "pay rent", "09:00", "one-time", true, none, some "06/01/2025", none⟩]
       [])
     ⟨"rem-2", "pay rent", "09:00", "one-time", true, none, some "06/01/2025", none⟩
     (by decide) (by decide) (by decide) (by decide) (by decide) (by decide)
     (by decide) (by decide)).2.1,
   (c5_one_time_auto_disable.1 (fun _ => TelegramOutcome.ok)
     ⟨"09:00", "שני", "06/01/2025"⟩ "iso1" 1000
     (TickState.mk
       [⟨"rem-2", "pay rent", "09:00", "one-time", true, none, some "06/01/2025", none⟩]
       [])
     ⟨"rem-2", "pay rent", "09:00", "one-time", true, none, some "06/01/2025", none⟩
     (by decide) (by decide) (by decide) (by decide) (by decide) (by decide)
     (by decide) (by decide)).2.2
     (fun _ => TelegramOutcome.ok) ⟨"10:00", "שני", "06/01/2025"⟩ "iso2" 1000 (by decide),
   c5_one_time_auto_disable.2 (fun _ => TelegramOutcome.apiError "chat not found")
     ⟨"09:00", "שני", "06/01/2025"⟩ "iso1" 1000
     (TickState.mk
       [⟨"rem-3", "standup", "09:00", "recurring", true, some ["שני"], none, none⟩]
       [])
     ⟨"rem-3", "standup", "09:00", "recurring", true, some ["שני"], none, none⟩
     (by decide) (by decide) (by decide)⟩

/-! ## Gateway reminder / supplier CRUD (`updateReminder`, `deleteReminder`,
`updateSupplier`, `deleteSupplier`)

`updateReminder` merges the request body into the stored record with
object spread, so the records are modelled as generic key/value objects
and the tables as id-keyed stores. -/

inductive JVal where
  | s : String → JVal
  | n : Int → JVal
  | b : Bool → JVal
  | null : JVal
  | strs : List String → JVal
deriving DecidableEq

/-- A JSON object; lookups take the first binding of a key, so bindings
added at the front override later ones (JavaScript's "later property
wins" spread, encoded with precedence-first order). -/
abbrev JObj := List (String × JVal)

def getField (o : JObj) (k : String) : Option JVal :=
  (o.find? (fun kv => kv.1 == k)).map (fun kv => kv.2)

/-- A DynamoDB table keyed by `id`. -/
abbrev Table := List (String × JObj)

def Table.get (t : Table) (id : String) : Option JObj :=
  (t.find? (fun kv => kv.1 == id)).map (fun kv => kv.2)

/-- `PutCommand`: overwrite the item at the key, or append it. -/
def Table.put (t : Table) (id : String) (o : JObj) : Table :=
  if t.any (fun kv => kv.1 == id) then
    t.map (fun kv => if kv.1 == id then (id, o) else kv)
  else t ++ [(id, o)]

/-- `DeleteCommand`: drop the item at the key; deleting an absent key
succeeds and changes nothing. -/
def Table.del (t : Table) (id : String) : Table :=
  t.filter (fun kv => kv.1 != id)

inductive ApiBody where
  | errorBody (msg : String)
  | objBody (o : JObj)
  | msgBody (msg : String)
deriving DecidableEq

structure ApiResponse where
  status : Nat
  body : ApiBody
deriving DecidableEq

/-- The item `updateReminder` writes:
`{...existing.Item, ...data, id, updatedAt: new Date().toISOString()}` —
the literal `id` and `updatedAt` override the body, which overrides the
stored record. -/
def updateReminderItem (id : String) (existing data : JObj) (nowIso : String) : JObj :=
  ("updatedAt", JVal.s nowIso) :: ("id", JVal.s id) :: (data ++ existing)

/-- `PUT /reminders/{id}`. -/
def updateReminderOp (id : String) (data : JObj) (t : Table) (nowIso : String) :
    ApiResponse × Table :=
  match Table.get t id with
  | none => (⟨404, .errorBody "Reminder not found"⟩, t)
  | some existing =>
      let item := updateReminderItem id existing data nowIso
      (⟨200, .objBody item⟩, Table.put t id item)

/-- `DELETE /reminders/{id}`: an unconditional `DeleteCommand` followed
by a 200 `{message: 'Deleted'}` — there is no existence check. -/
def deleteReminderOp (id : String) (t : Table) : ApiResponse × Table :=
  (⟨200, .msgBody "Deleted"⟩, Table.del t id)

/-- JavaScript truthiness of the values the supplier merge can meet. -/
def jsTruthy : JVal → Bool
  | .s str => !(str == "")
  | .n i => !(i == 0)
  | .b bv => bv
  | .null => false
  | .strs _ => true

/-- JavaScript `a || b` on possibly-absent fields. -/
def jsOr (a b : Option JVal) : Option JVal :=
  match a with
  | some v => if jsTruthy v then some v else b
  | none => b

/-- Write a key with a possibly-undefined value: an undefined value
leaves the key observably absent. -/
def setOpt (k : String) (v : Option JVal) (o : JObj) : JObj :=
  match v with
  | some x => (k, x) :: o
  | none => o.filter (fun kv => kv.1 != k)

/-- The item `updateSupplier` writes: the stored record with `name` and
`location` replaced when the body's value is truthy, `phone` and `notes`
replaced when present (`!== undefined`), and a fresh `updatedAt`. -/
def updateSupplierItem (existing data : JObj) (nowIso : String) : JObj :=
  setOpt "updatedAt" (some (.s nowIso))
    (setOpt "location" (jsOr (getField data "location") (getField existing "location"))
      (setOpt "notes" ((getField data "notes").or (getField existing "notes"))
        (setOpt "phone" ((getField data "phone").or (getField existing "phone"))
          (setOpt "name" (jsOr (getField data "name") (getField existing "name"))
            existing))))

/-- `PUT /suppliers/{id}`. -/
def updateSupplierOp (id : String) (data : JObj) (t : Table) (nowIso : String) :
    ApiResponse × Table :=
  match Table.get t id with
  | none => (⟨404, .errorBody "Supplier not found"⟩, t)
  | some existing =>
      let item := updateSupplierItem existing data nowIso
      (⟨200, .objBody item⟩, Table.put t id item)

/-- `DELETE /suppliers/{id}`: unconditional delete, 200 always. -/
def deleteSupplierOp (id : String) (t : Table) : ApiResponse × Table :=
  (⟨200, .msgBody "Deleted"⟩, Table.del t id)

/-! ### Helper lemmas about the gateway CRUD -/

theorem table_del_get_none (t : Table) (id : String)
    (h : Table.get t id = none) : Table.del t id = t := by
  unfold Table.get at h
  cases hf : t.find? (fun kv => kv.1 == id) with
  | some kv => rw [hf] at h; simp at h
  | none =>
    have hall := List.find?_eq_none.mp hf
    unfold Table.del
    rw [List.filter_eq_self]
    intro kv hkv
    have hne := hall kv hkv
    simp only [Bool.not_eq_true] at hne
    simpa using hne

/-! ## Claim theorems about the gateway CRUD -/

/-- C7 fails on the code for DELETE: `deleteReminder` deletes
unconditionally and answers 200 `{message: 'Deleted'}` even when the id
does not exist — here on an empty reminders table. -/
theorem c7_counterexample :
    Table.get ([] : Table) "rem-1" = none ∧
    deleteReminderOp "rem-1" ([] : Table) = (⟨200, .msgBody "Deleted"⟩, []) ∧
    (200 : Nat) ≠ 404 := by
  decide

/-- C7 (amended): a PUT on a reminder or supplier id that is not in the
store answers 404 with an `{error}` body and writes nothing; a DELETE on
a missing id also writes nothing, but answers 200 with a `{message}`
body rather than 404, because the delete handlers never check
existence. -/
theorem c7_not_found (id : String) (t : Table) :
    (∀ (data : JObj) (nowIso : String), Table.get t id = none →
      updateReminderOp id data t nowIso = (⟨404, .errorBody "Reminder not found"⟩, t)) ∧
    (∀ (data : JObj) (nowIso : String), Table.get t id = none →
      updateSupplierOp id data t nowIso = (⟨404, .errorBody "Supplier not found"⟩, t)) ∧
    (Table.get t id = none →
      deleteReminderOp id t = (⟨200, .msgBody "Deleted"⟩, t)) ∧
    (Table.get t id = none →
      deleteSupplierOp id t = (⟨200, .msgBody "Deleted"⟩, t)) := by
  refine ⟨fun data nowIso h => ?_, fun data nowIso h => ?_, fun h => ?_, fun h => ?_⟩
  · simp [updateReminderOp, h]
  · simp [updateSupplierOp, h]
  · simp [deleteReminderOp, table_del_get_none t id h]
  · simp [deleteSupplierOp, table_del_get_none t id h]

theorem c7_not_found_witness :
    Table.get ([("sup-1", [("id", JVal.s "sup-1"), ("name", JVal.s "dairy")])] : Table)
        "sup-2" = none ∧
    updateReminderOp "sup-2" [("title", JVal.s "x")]
        [("sup-1", [("id", JVal.s "sup-1"), ("name", JVal.s "dairy")])] "t1"
      = (⟨404, .errorBody "Reminder not found"⟩,
         [("sup-1", [("id", JVal.s "sup-1"), ("name", JVal.s "dairy")])]) ∧
    updateSupplierOp "sup-2" [("name", JVal.s "x")]
        [("sup-1", [("id", JVal.s "sup-1"), ("name", JVal.s "dairy")])] "t1"
      = (⟨404, .errorBody "Supplier not found"⟩,
         [("sup-1", [("id", JVal.s "sup-1"), ("name", JVal.s "dairy")])]) ∧
    deleteSupplierOp "sup-2"
        [("sup-1", [("id", JVal.s "sup-1"), ("name", JVal.s "dairy")])]
      = (⟨200, .msgBody "Deleted"⟩,
         [("sup-1", [("id", JVal.s "sup-1"), ("name", JVal.s "dairy")])]) :=
  ⟨by decide,
   (c7_not_found "sup-2"
       [("sup-1", [("id", JVal.s "sup-1"), ("name", JVal.s "dairy")])]).1
     [("title", JVal.s "x")] "t1" (by decide),
   (c7_not_found "sup-2"
       [("sup-1", [("id", JVal.s "sup-1"), ("name", JVal.s "dairy")])]).2.1
     [("name", JVal.s "x")] "t1" (by decide),
   (c7_not_found "sup-2"
       [("sup-1", [("id", JVal.s "sup-1"), ("name", JVal.s "dairy")])]).2.2.2
     (by decide)⟩

/-- C10 fails on the code for `updatedAt`: updating a reminder whose
body does not carry `updatedAt` still replaces the stored `updatedAt`
with the current timestamp. -/
theorem c10_counterexample :
    getField [("title", JVal.s "b")] "updatedAt" = none ∧
    getField [("id", JVal.s "rem-1"), ("title", JVal.s "a"), ("updatedAt", JVal.s "T0")]
        "updatedAt" = some (JVal.s "T0") ∧
    (updateReminderOp "rem-1" [("title", JVal.s "b")]
        [("rem-1", [("id", JVal.s "rem-1"), ("title", JVal.s "a"),
                    ("updatedAt", JVal.s "T0")])] "T1").2
      = Table.put
          [("rem-1", [("id", JVal.s "rem-1"), ("title", JVal.s "a"),
                      ("updatedAt", JVal.s "T0")])]
          "rem-1"
          (updateReminderItem "rem-1"
            [("id", JVal.s "rem-1"), ("title", JVal.s "a"), ("updatedAt", JVal.s "T0")]
            [("title", JVal.s "b")] "T1") ∧
    getField (updateReminderItem "rem-1"
        [("id", JVal.s "rem-1"), ("title", JVal.s "a"), ("updatedAt", JVal.s "T0")]
        [("title", JVal.s "b")] "T1") "updatedAt" = some (JVal.s "T1") ∧
    some (JVal.s "T1") ≠ some (JVal.s "T0") := by
  decide

/-- C10 (amended): updating an existing reminder stores the spread-merge
of the body over the stored record; every field other than `id` and
`updatedAt` that is not a key of the body keeps its stored value, the
stored `id` is the path id even if the body carries a different one, and
`updatedAt` is always set to the current timestamp. -/
theorem c10_update_frame (id : String) (data : JObj) (t : Table) (nowIso : String)
    (existing : JObj) (h : Table.get t id = some existing) :
    updateReminderOp id data t nowIso
      = (⟨200, .objBody (updateReminderItem id existing data nowIso)⟩,
         Table.put t id (updateReminderItem id existing data nowIso)) ∧
    (∀ k, k ≠ "id" → k ≠ "updatedAt" → getField data k = none →
      getField (updateReminderItem id existing data nowIso) k = getField existing k) ∧
    getField (updateReminderItem id existing data nowIso) "id" = some (JVal.s id) ∧
    getField (updateReminderItem id existing data nowIso) "updatedAt"
      = some (JVal.s nowIso) := by
  refine ⟨by simp [updateReminderOp, h], ?_, ?_, ?_⟩
  · intro k hk1 hk2 hdata
    have hfind : data.find? (fun kv => kv.1 == k) = none := by
      unfold getField at hdata
      cases hf : data.find? (fun kv => kv.1 == k) with
      | none => rfl
      | some kv => rw [hf] at hdata; simp at hdata
    have hb1 : (("updatedAt" : String) == k) = false := by
      simp [Ne.symm hk2]
    have hb2 : (("id" : String) == k) = false := by
      simp [Ne.symm hk1]
    simp [getField, updateReminderItem, List.find?_cons, hb1, hb2,
      List.find?_append, hfind]
  · have hb1 : (("updatedAt" : String) == "id") = false := by decide
    simp [getField, updateReminderItem, List.find?_cons, hb1]
  · simp [getField, updateReminderItem, List.find?_cons]

theorem c10_update_frame_witness :
    Table.get
        [("rem-1", [("id", JVal.s "rem-1"), ("title", JVal.s "a"),
                    ("note", JVal.s "keep me")])] "rem-1"
      = some [("id", JVal.s "rem-1"), ("title", JVal.s "a"),
              ("note", JVal.s "keep me")] ∧
    getField (updateReminderItem "rem-1"
        [("id", JVal.s "rem-1"), ("title", JVal.s "a"), ("note", JVal.s "keep me")]
        [("title", JVal.s "b"), ("id", JVal.s "evil")] "T1") "note"
      = getField [("id", JVal.s "rem-1"), ("title", JVal.s "a"),
                  ("note", JVal.s "keep me")] "note" ∧
    getField (updateReminderItem "rem-1"
        [("id", JVal.s "rem-1"), ("title", JVal.s "a"), ("note", JVal.s "keep me")]
        [("title", JVal.s "b"), ("id", JVal.s "evil")] "T1") "id"
      = some (JVal.s "rem-1") :=
  ⟨by decide,
   (c10_update_frame "rem-1" [("title", JVal.s "b"), ("id", JVal.s "evil")]
       [("rem-1", [("id", JVal.s "rem-1"), ("title", JVal.s "a"),
                   ("note", JVal.s "keep me")])] "T1"
       [("id", JVal.s "rem-1"), ("title", JVal.s "a"), ("note", JVal.s "keep me")]
       (by decide)).2.1 "note" (by decide) (by decide) (by decide),
   (c10_update_frame "rem-1" [("title", JVal.s "b"), ("id", JVal.s "evil")]
       [("rem-1", [("id", JVal.s "rem-1"), ("title", JVal.s "a"),
                   ("note", JVal.s "keep me")])] "T1"
       [("id", JVal.s "rem-1"), ("title", JVal.s "a"), ("note", JVal.s "keep me")]
       (by decide)).2.2.1⟩

end BusinessManager
